import Mathlib

/-!
Verification of the Kode Studio chrome debug adapter
(`src/chromeDebugAdapter.ts`) against its natural-language specification.

The TypeScript source is shallowly embedded below: JavaScript strings are
modelled as `List Char` (so that `String.prototype.indexOf` and the
single-replacement `String.prototype.replace` can be given their exact
first-occurrence semantics), optional arguments as `Option`, JavaScript
truthiness tests (`if (x)`) as explicit `jsStrTruthy` / `jsNumTruthy`
checks, and the side-effecting teardown code as a pure function emitting a
trace of teardown events.
-/

namespace KodeChromeDebug

/-- JavaScript strings, modelled as lists of characters. -/
abbrev Str := List Char

/-- JavaScript truthiness of an optional string value: `undefined` and the
empty string are falsy, every other string is truthy. -/
def jsStrTruthy : Option Str → Bool
  | none => false
  | some s => !s.isEmpty

/-- JavaScript truthiness of an optional number value: `undefined`, `NaN`
(both modelled as `none`) and `0` are falsy. -/
def jsNumTruthy : Option Nat → Bool
  | none => false
  | some n => n != 0

/-- `String.prototype.indexOf(pat)`: index of the first occurrence of `pat`
in the string, `none` when absent (JavaScript returns `-1`). -/
def idxOf? (pat : Str) : Str → Option Nat
  | [] => if pat = [] then some 0 else none
  | c :: t => if pat.isPrefixOf (c :: t) then some 0 else (idxOf? pat t).map (· + 1)

/-- `String.prototype.replace(pat, rep)` with a string search pattern:
replaces only the FIRST occurrence of `pat`.  (Dollar escape sequences in
the replacement string are not modelled.) -/
def replaceFirst (pat rep : Str) : Str → Str
  | [] => if pat = [] then rep else []
  | c :: t =>
    if pat.isPrefixOf (c :: t) then rep ++ (c :: t).drop pat.length
    else c :: replaceFirst pat rep t

/-- Boolean substring containment, i.e. `s.indexOf(pat) !== -1`. -/
def containsSub (pat : Str) : Str → Bool
  | [] => pat.isEmpty
  | c :: t => pat.isPrefixOf (c :: t) || containsSub pat t

/-- The diagnostics `resolveWebRootPattern` can log. -/
inductive Warn
  /-- "sourceMapPathOverrides entry contains the placeholder, but webRoot
  is not set" -/
  | missingWebRoot
  /-- "the placeholder is only valid at the beginning of the path" -/
  | notAtBeginning
deriving DecidableEq

/-- The literal root placeholder searched for by `resolveWebRootPattern`. -/
def webRootToken : Str := "${webRoot}".toList

/-- One loop iteration of `resolveWebRootPattern`
(src/chromeDebugAdapter.ts lines 278-292): the resolved replacement value
for a single table entry, together with the diagnostics logged for it. -/
def resolveReplace (webRoot : Option Str) (warnOnMissing : Bool)
    (replacePattern : Str) : Str × List Warn :=
  match idxOf? webRootToken replacePattern with
  | some 0 =>
    if jsStrTruthy webRoot then
      (replaceFirst webRootToken (webRoot.getD []) replacePattern, [])
    else if warnOnMissing then (replacePattern, [Warn.missingWebRoot])
    else (replacePattern, [])
  | some (_ + 1) => (replacePattern, [Warn.notAtBeginning])
  | none => (replacePattern, [])

/-- `resolveWebRootPattern(webRoot, sourceMapPathOverrides, warnOnMissing)`
(src/chromeDebugAdapter.ts lines 276-295).  The override table is an
association list in object-insertion order; the function returns the
resolved table together with all diagnostics logged. -/
def resolveWebRootPattern (webRoot : Option Str) (overrides : List (Str × Str))
    (warnOnMissing : Bool) : List (Str × Str) × List Warn :=
  match overrides with
  | [] => ([], [])
  | (pattern, replacePattern) :: rest =>
    let e := resolveReplace webRoot warnOnMissing replacePattern
    let r := resolveWebRootPattern webRoot rest warnOnMissing
    ((pattern, e.1) :: r.1, e.2 ++ r.2)

/-- `DefaultWebSourceMapPathOverrides` (src/chromeDebugAdapter.ts lines
18-24). -/
def DefaultWebSourceMapPathOverrides : List (Str × Str) :=
  [ ("webpack:///./~/*".toList, "${webRoot}/node_modules/*".toList),
    ("webpack:///./*".toList, "${webRoot}/*".toList),
    ("webpack:///*".toList, "*".toList),
    ("webpack:///src/*".toList, "${webRoot}/*".toList),
    ("meteor://💻app/*".toList, "${webRoot}/*".toList) ]

/-- `getSourceMapPathOverrides(webRoot, sourceMapPathOverrides)`
(src/chromeDebugAdapter.ts lines 268-271).  A supplied user table (any
object, even empty, is truthy in JavaScript) is resolved with
`warnOnMissing` set; otherwise the built-in defaults are resolved with it
unset. -/
def getSourceMapPathOverrides (webRoot : Option Str)
    (sourceMapPathOverrides : Option (List (Str × Str))) :
    List (Str × Str) × List Warn :=
  match sourceMapPathOverrides with
  | some t => resolveWebRootPattern webRoot t true
  | none => resolveWebRootPattern webRoot DefaultWebSourceMapPathOverrides false

/-- JavaScript truthiness of an optional `String` value (launch-side model,
where arguments are kept as Lean `String`s). -/
def jsStringTruthy : Option String → Bool
  | none => false
  | some s => !(s == "")

/-- The random port expression
`Math.floor((Math.random() * 10000) + 10000)` (src/chromeDebugAdapter.ts
line 104); the random draw is modelled by the parameter `r`, reduced into
the draw's range `[0, 10000)` by `% 10000`. -/
def randomPort (r : Nat) : Nat := 10000 + r % 10000

/-- `const port = args.port || Math.floor((Math.random() * 10000) + 10000)`
(src/chromeDebugAdapter.ts line 104).  `||` uses JavaScript truthiness, so
an explicit port `0` (falsy) also selects the random port. -/
def selectPort (port : Option Nat) (r : Nat) : Nat :=
  if jsNumTruthy port then port.getD 0 else randomPort r

/-- Node's `path.join(a, b)`, modelled as separator joining (path
normalization is not modelled; the arguments in this adapter carry no `..`
segments). -/
def pathJoin (a b : String) : String := a ++ "/" ++ b

/-- Modelled from the spec: `coreUtils.pathToFileURL` lives in the external
`vscode-chrome-debug-core` package, not in this repository; the spec
describes the launch URL as `file://<workdir>/<file>/index.html`, so the
conversion is modelled as prefixing `file://`. -/
def pathToFileURL (p : String) : String := "file://" ++ p

/-- Node's `path.resolve(cwd, p)` for a string `p`, modelled as: an
absolute path is returned unchanged, a relative one is joined onto `cwd`
(normalization is not modelled). -/
def pathResolve (cwd p : String) : String :=
  if "/".data.isPrefixOf p.data then p else cwd ++ "/" ++ p

instance instDecEqExcept {ε α : Type} [DecidableEq ε] [DecidableEq α] :
    DecidableEq (Except ε α) := fun x y =>
  match x, y with
  | Except.ok a, Except.ok b =>
    if h : a = b then isTrue (by rw [h])
    else isFalse (by intro hh; cases hh; exact h rfl)
  | Except.error a, Except.error b =>
    if h : a = b then isTrue (by rw [h])
    else isFalse (by intro hh; cases hh; exact h rfl)
  | Except.ok _, Except.error _ => isFalse (by intro hh; cases hh)
  | Except.error _, Except.ok _ => isFalse (by intro hh; cases hh)

/-- The `launchUrl` computation (src/chromeDebugAdapter.ts lines 109-114):
a truthy file target yields the `file://` URL of
`path.join(cwd, file, 'index.html')`; otherwise a truthy url target is
used as-is; otherwise `launchUrl` stays undefined. -/
def computeLaunchUrl (cwd : String) (file url : Option String) : Option String :=
  if jsStringTruthy file then
    some (pathToFileURL (pathJoin (pathJoin cwd (file.getD "")) "index.html"))
  else if jsStringTruthy url then url
  else none

/-- The URL arguments pushed by `if (launchUrl) chromeArgs.push(launchUrl)`
(src/chromeDebugAdapter.ts lines 116-118). -/
def urlArgs (cwd : String) (file url : Option String) : List String :=
  match computeLaunchUrl cwd file url with
  | some u => if u == "" then [] else [u]
  | none => []

/-- The launch-URL shape the spec describes in its own words:
`file://<workdir>/<file>/index.html`. -/
def specLaunchFileUrl (cwd f : String) : String :=
  "file://" ++ cwd ++ "/" ++ f ++ "/index.html"

/-- The `chromeArgs` vector assembled by `launch`
(src/chromeDebugAdapter.ts lines 105-118): the fixed `--chromedebug` flag,
the remote-debugging flag carrying the port, then — unconditionally —
`path.resolve(args.cwd, args.file)`, then the launch URL when truthy.
When `args.file` is `undefined`, Node's `path.resolve` throws a
`TypeError`, modelled as `Except.error`. -/
def buildChromeArgs (cwd : String) (file url : Option String) (port : Nat) :
    Except String (List String) :=
  match file with
  | none => Except.error "TypeError: path argument must be of type string"
  | some f =>
    Except.ok (["--chromedebug", "--remote-debugging-port=" ++ Nat.repr port,
        pathResolve cwd f] ++ urlArgs cwd (some f) url)

/-- The rejection object `{id: Math.floor(Math.random() * 100000),
format: 'Compilation failed.'}` (src/chromeDebugAdapter.ts line 133). -/
structure DebugRejection where
  id : Nat
  format : String
deriving DecidableEq

/-- The rejection synthesized when the khamake build fails; the random draw
`Math.floor(Math.random() * 100000)` is modelled by `r % 100000`. -/
def compilationFailedRejection (r : Nat) : DebugRejection :=
  { id := r % 100000, format := "Compilation failed." }

/-- The build-failure handler of `launch` (src/chromeDebugAdapter.ts lines
130-135): a successful build continues the launch, a rejected build is
mapped — without any retry — onto the synthesized placeholder rejection. -/
def launchBuildOutcome (buildResult : Except String Unit) (r : Nat) :
    Except DebugRejection Unit :=
  match buildResult with
  | Except.ok _ => Except.ok ()
  | Except.error _ => Except.error (compilationFailedRejection r)

/-- Host platform as reported by `coreUtils.getPlatform()`. -/
inductive Platform
  | windows
  | osx
  | linux
deriving DecidableEq

/-- The spawn strategy chosen by `spawnChrome`
(src/chromeDebugAdapter.ts lines 231-265).  `helperMediated` records the
`fork` of the spawn-helper script with `[chromePath, ...chromeArgs]`,
silent streams, and the immediate `unref()`; the helper later reports the
real debuggee PID via a message (`parseInt(pidStr, 10)`).  `direct`
records the `spawn` of the executable with the argument vector, the
`detached: true` option, the `stdio: ['ignore']` option (standard input
discarded), and the immediate `unref()`. -/
inductive SpawnStrategy
  | helperMediated (forkArgs : List String) (silent : Bool) (unref : Bool)
  | direct (cmd : String) (args : List String) (detached : Bool)
      (stdio : List String) (unref : Bool)
deriving DecidableEq

/-- `spawnChrome(chromePath, chromeArgs, usingRuntimeExecutable)`
(src/chromeDebugAdapter.ts lines 231-265): the helper-mediated fork is
taken exactly on Windows without an explicit runtime executable; every
other case spawns directly. -/
def spawnChrome (platform : Platform) (chromePath : String)
    (chromeArgs : List String) (usingRuntimeExecutable : Bool) : SpawnStrategy :=
  if platform = Platform.windows ∧ usingRuntimeExecutable = false then
    SpawnStrategy.helperMediated (chromePath :: chromeArgs) true true
  else
    SpawnStrategy.direct chromePath chromeArgs true ["ignore"] true

/-- The adapter state read and written by `disconnect`:
`_chromeProc` (an opaque process-handle token, `none` when null or still
unset), `_chromePID` (`none` when undefined or `NaN`), and the inherited
`_hasTerminated` flag. -/
structure AdapterState where
  chromeProc : Option Nat
  chromePID : Option Nat
  hasTerminated : Bool
deriving DecidableEq

/-- The externally observable teardown actions of `disconnect`: the
protocol detach performed by the base-class disconnect, the forceful
synchronous `taskkill /F /T /PID <pid>`, and the cooperative
`kill('SIGINT')` on the handle. -/
inductive TeardownEvent
  | detach
  | taskkill (pid : Nat)
  | sigint
deriving DecidableEq

/-- Whether a teardown event is an attempt to kill the debuggee. -/
def isKill : TeardownEvent → Bool
  | TeardownEvent.detach => false
  | TeardownEvent.taskkill _ => true
  | TeardownEvent.sigint => true

/-- `disconnect()` (src/chromeDebugAdapter.ts lines 196-222) as a pure
state transformer emitting its trace of teardown events in program order.
`_hasTerminated` is captured before the base-class disconnect; the base
class (external `vscode-chrome-debug-core`) may or may not mark the
session terminated during its detach, so that effect is an arbitrary
parameter `baseMarksTerminated` and every theorem below holds for both
values.  The `execSync(taskkill ...)` is wrapped in a swallow-all
`try/catch` and `kill('SIGINT')` does not throw, so the function is total:
the emitted kill event records the attempt regardless of its OS-level
outcome.  The handle is cleared (`this._chromeProc = null`)
unconditionally at the end. -/
def disconnect (platform : Platform) (baseMarksTerminated : Bool)
    (s : AdapterState) : AdapterState × List TeardownEvent :=
  let hadTerminated := s.hasTerminated
  let s1 : AdapterState :=
    { s with hasTerminated := s.hasTerminated || baseMarksTerminated }
  let kills :=
    if s1.chromeProc.isSome ∧ hadTerminated = false then
      if platform = Platform.windows ∧ jsNumTruthy s1.chromePID then
        [TeardownEvent.taskkill (s1.chromePID.getD 0)]
      else [TeardownEvent.sigint]
    else []
  ({ s1 with chromeProc := none }, TeardownEvent.detach :: kills)

/-! ## Helper lemmas -/

theorem jsStrTruthy_of_ne (w : Str) (h : w ≠ []) : jsStrTruthy (some w) = true := by
  cases w with
  | nil => exact absurd rfl h
  | cons a as => rfl

theorem isPrefixOf_append_self (l r : Str) : l.isPrefixOf (l ++ r) = true := by
  induction l with
  | nil => simp [List.isPrefixOf]
  | cons a as ih => simp [List.isPrefixOf, ih]

theorem idxOf?_eq_zero (pat s : Str) :
    idxOf? pat s = some 0 ↔ pat.isPrefixOf s = true := by
  cases s with
  | nil =>
    cases pat with
    | nil => simp [idxOf?]
    | cons a as => simp [idxOf?, List.isPrefixOf]
  | cons c t =>
    by_cases h : pat.isPrefixOf (c :: t) = true
    · simp [idxOf?, h]
    · simp only [idxOf?]
      rw [if_neg h]
      simp only [h, iff_false]
      cases hx : idxOf? pat t <;> simp [hx]

theorem idxOf?_isSome (pat s : Str) :
    (idxOf? pat s).isSome = containsSub pat s := by
  induction s with
  | nil => cases pat <;> simp [idxOf?, containsSub, List.isEmpty]
  | cons c t ih =>
    by_cases h : pat.isPrefixOf (c :: t) = true
    · simp [idxOf?, containsSub, h]
    · simp [idxOf?, containsSub, h, ← ih]

theorem replaceFirst_of_pre (pat rep s : Str) (hne : pat ≠ [])
    (h : pat.isPrefixOf s = true) :
    replaceFirst pat rep s = rep ++ s.drop pat.length := by
  cases s with
  | nil =>
    cases pat with
    | nil => exact absurd rfl hne
    | cons a as => simp [List.isPrefixOf] at h
  | cons c t => simp [replaceFirst, h]

theorem resolveWebRootPattern_fst (webRoot : Option Str)
    (T : List (Str × Str)) (b : Bool) :
    (resolveWebRootPattern webRoot T b).1 =
      T.map (fun e => (e.1, (resolveReplace webRoot b e.2).1)) := by
  induction T with
  | nil => rfl
  | cons e rest ih =>
    cases e with
    | mk p rp => simp [resolveWebRootPattern, ih]

theorem resolveWebRootPattern_keys (webRoot : Option Str)
    (T : List (Str × Str)) (b : Bool) :
    (resolveWebRootPattern webRoot T b).1.map Prod.fst = T.map Prod.fst := by
  rw [resolveWebRootPattern_fst, List.map_map]
  rfl

theorem pathToFileURL_join (cwd f : String) :
    pathToFileURL (pathJoin (pathJoin cwd f) "index.html") = specLaunchFileUrl cwd f := by
  have h : ("/index.html" : String) = "/" ++ "index.html" := by decide
  unfold pathToFileURL pathJoin specLaunchFileUrl
  rw [h]
  simp [String.append_assoc]

/-! ## Claim theorems -/

/-- Claim C1: `disconnect()` is idempotent.  After one call to
`disconnect()` has completed, a second call emits the protocol detach and
nothing else — no `taskkill` and no `SIGINT` — whatever the platform or
the base-class behavior on either call; and, in general, a state whose
handle has been cleared or which is already marked terminated produces no
kill event.  The embedding is a total function, so no call throws (the
source wraps `execSync` in a swallow-all `try/catch`). -/
theorem c1_disconnect_idempotent (p p' : Platform) (b b' : Bool) (s : AdapterState) :
    (disconnect p' b' (disconnect p b s).1).2 = [TeardownEvent.detach] ∧
    (∀ (q : Platform) (c : Bool) (t : AdapterState),
      t.chromeProc = none ∨ t.hasTerminated = true →
      (disconnect q c t).2 = [TeardownEvent.detach]) := by
  have key : ∀ (q : Platform) (c : Bool) (t : AdapterState),
      t.chromeProc = none ∨ t.hasTerminated = true →
      (disconnect q c t).2 = [TeardownEvent.detach] := by
    intro q c t h
    rcases h with h | h
    · simp [disconnect, h]
    · simp [disconnect, h]
  exact ⟨key p' b' _ (Or.inl rfl), key⟩

/-- Witness for C1 at a concrete terminated state: the second disconnect
of a session that already terminated emits only the detach. -/
theorem c1_witness :
    (disconnect Platform.windows false
      (⟨some 1, some 77, true⟩ : AdapterState)).2 = [TeardownEvent.detach] :=
  (c1_disconnect_idempotent Platform.linux Platform.linux false false
    (⟨none, none, false⟩ : AdapterState)).2 Platform.windows false _ (Or.inr rfl)

/-- Claim C2: in every execution of `disconnect()`, every kill action in
the emitted trace (forceful `taskkill` or `SIGINT`) occurs strictly after
a protocol detach in that trace. -/
theorem c2_detach_before_kill (p : Platform) (b : Bool) (s : AdapterState) :
    ∀ (i : Nat) (hi : i < ((disconnect p b s).2).length),
      isKill (((disconnect p b s).2).get ⟨i, hi⟩) = true →
      ∃ (j : Nat) (hj : j < ((disconnect p b s).2).length),
        j < i ∧ ((disconnect p b s).2).get ⟨j, hj⟩ = TeardownEvent.detach := by
  intro i hi hk
  match i with
  | 0 =>
    exfalso
    have h0 : ((disconnect p b s).2).get ⟨0, hi⟩ = TeardownEvent.detach := rfl
    rw [h0] at hk
    exact Bool.noConfusion hk
  | Nat.succ k =>
    have hlen : 0 < ((disconnect p b s).2).length := Nat.lt_of_lt_of_le (Nat.zero_lt_succ k) (Nat.le_of_lt hi)
    exact ⟨0, hlen, Nat.succ_pos k, rfl⟩

/-- Witness for C2 at a concrete run that does kill: on Linux with a live
handle, the `SIGINT` at index 1 is preceded by the detach at index 0. -/
theorem c2_witness :
    ∃ (j : Nat) (hj : j <
        ((disconnect Platform.linux false (⟨some 1, none, false⟩ : AdapterState)).2).length),
      j < 1 ∧ ((disconnect Platform.linux false
        (⟨some 1, none, false⟩ : AdapterState)).2).get ⟨j, hj⟩ = TeardownEvent.detach :=
  c2_detach_before_kill Platform.linux false (⟨some 1, none, false⟩ : AdapterState)
    1 (by decide) (by decide)

/-- Claim C3, amended: an explicit NONZERO port is selected exactly; with
no explicit port — or with the explicit port 0, which is falsy for the
`args.port || ...` test — the selected port lies in [10000, 20000). -/
theorem c3_port_selection (p r : Nat) :
    (p ≠ 0 → selectPort (some p) r = p) ∧
    (10000 ≤ selectPort none r ∧ selectPort none r < 20000) ∧
    (10000 ≤ selectPort (some 0) r ∧ selectPort (some 0) r < 20000) := by
  have hrange : 10000 ≤ randomPort r ∧ randomPort r < 20000 := by
    unfold randomPort
    have hmod : r % 10000 < 10000 := Nat.mod_lt _ (by decide)
    omega
  refine ⟨?_, ?_, ?_⟩
  · intro hp
    simp [selectPort, jsNumTruthy, hp]
  · simpa [selectPort, jsNumTruthy] using hrange
  · simpa [selectPort, jsNumTruthy] using hrange

/-- Counterexample for C3 as stated: the launch config with the explicit
port 0 does not get port 0 — `args.port || random` treats 0 as absent and
selects a random port (here 10000). -/
theorem c3_counterexample : selectPort (some 0) 0 ≠ 0 := by decide

/-- Witness for C3 at concrete inputs. -/
theorem c3_witness :
    selectPort (some 8080) 3 = 8080 ∧
    10000 ≤ selectPort none 5 ∧ selectPort none 5 < 20000 :=
  ⟨(c3_port_selection 8080 3).1 (by decide), (c3_port_selection 0 5).2.1⟩

/-- Claim C7, amended: when the build collaborator rejects, `launch` fails
with the synthesized placeholder rejection whose human-readable text is
"Compilation failed." and whose identifier is a PSEUDO-RANDOM integer in
[0, 100000) — not a fixed value; the build result is consumed exactly once
(no retry). -/
theorem c7_build_failure (msg : String) (r : Nat) :
    launchBuildOutcome (Except.error msg) r =
      Except.error (compilationFailedRejection r) ∧
    (compilationFailedRejection r).format = "Compilation failed." ∧
    (compilationFailedRejection r).id < 100000 :=
  ⟨rfl, rfl, Nat.mod_lt _ (by decide)⟩

/-- Counterexample for C7 as stated: the rejection identifier is not a
fixed value — two runs differing only in the random draw produce different
rejections (ids 0 and 1). -/
theorem c7_counterexample :
    launchBuildOutcome (Except.error "reason") 0 ≠
      launchBuildOutcome (Except.error "reason") 1 := by decide

/-- Claim C8: the helper-mediated spawn (a fork of the helper forwarding
`[chromePath, ...chromeArgs]` with silenced streams, immediately
unreffed) is chosen exactly on Windows with no explicit runtime
executable; in every other case the executable is spawned directly with
the argument vector, detached, with standard input discarded
(`stdio: ['ignore']`), and immediately unreffed. -/
theorem c8_spawn_strategy (p : Platform) (chromePath : String)
    (chromeArgs : List String) (u : Bool) :
    (spawnChrome p chromePath chromeArgs u =
        SpawnStrategy.helperMediated (chromePath :: chromeArgs) true true ↔
      p = Platform.windows ∧ u = false) ∧
    (¬(p = Platform.windows ∧ u = false) →
      spawnChrome p chromePath chromeArgs u =
        SpawnStrategy.direct chromePath chromeArgs true ["ignore"] true) := by
  by_cases h : p = Platform.windows ∧ u = false
  · exact ⟨by simp [spawnChrome, h], fun hn => absurd h hn⟩
  · exact ⟨by simp [spawnChrome, h], fun _ => by simp [spawnChrome, h]⟩

/-- Witness for C8 at concrete inputs: Windows without a runtime
executable forks the helper; Linux spawns directly. -/
theorem c8_witness :
    spawnChrome Platform.windows "/usr/bin/electron" ["--chromedebug"] false =
      SpawnStrategy.helperMediated ("/usr/bin/electron" :: ["--chromedebug"]) true true ∧
    spawnChrome Platform.linux "/usr/bin/electron" ["--chromedebug"] false =
      SpawnStrategy.direct "/usr/bin/electron" ["--chromedebug"] true ["ignore"] true :=
  ⟨((c8_spawn_strategy Platform.windows "/usr/bin/electron" ["--chromedebug"] false).1).mpr
      ⟨rfl, rfl⟩,
   (c8_spawn_strategy Platform.linux "/usr/bin/electron" ["--chromedebug"] false).2
      (by simp)⟩

/-- Claim C4: when a (nonempty, i.e. truthy) file target is given, the
launch URL is the file:// URL of workdir/file/index.html in the spec's own
shape; when no truthy file target but a truthy URL target is given, the
launch URL is that URL unchanged; when neither is given, no URL argument
is appended; and at most one URL argument is ever appended. -/
theorem c4_launch_url (cwd : String) (file url : Option String) :
    (∀ f : String, file = some f → f ≠ "" →
      computeLaunchUrl cwd file url = some (specLaunchFileUrl cwd f)) ∧
    (jsStringTruthy file = false → ∀ u : String, url = some u → u ≠ "" →
      computeLaunchUrl cwd file url = some u) ∧
    (jsStringTruthy file = false → jsStringTruthy url = false →
      urlArgs cwd file url = []) ∧
    (urlArgs cwd file url).length ≤ 1 := by
  refine ⟨?_, ?_, ?_, ?_⟩
  · intro f hf hfne
    subst hf
    have ht : jsStringTruthy (some f) = true := by
      simp [jsStringTruthy, hfne]
    simp [computeLaunchUrl, ht, pathToFileURL_join]
  · intro hft u hu hune
    subst hu
    have ht : jsStringTruthy (some u) = true := by
      simp [jsStringTruthy, hune]
    simp [computeLaunchUrl, hft, ht]
  · intro hft hut
    simp [urlArgs, computeLaunchUrl, hft, hut]
  · cases hx : computeLaunchUrl cwd file url with
    | none => simp [urlArgs, hx]
    | some u =>
      simp only [urlArgs, hx]
      split <;> simp

/-- Witness for C4 at the spec's example: file target "app" with working
directory "/proj" yields file:///proj/app/index.html. -/
theorem c4_witness :
    computeLaunchUrl "/proj" (some "app") none = some "file:///proj/app/index.html" := by
  have h := (c4_launch_url "/proj" (some "app") none).1 "app" rfl (by decide)
  rw [h]
  decide

/-- Claim C5, amended: the assembled argument vector is the fixed
`--chromedebug` flag, then the remote-debugging flag carrying the port,
then — UNCONDITIONALLY — the file target resolved against the working
directory, then the launch URL when present.  When the config has no file
target at all, the unconditional `path.resolve(args.cwd, args.file)`
throws a TypeError instead of producing a vector. -/
theorem c5_argument_vector (cwd : String) (file url : Option String) (port : Nat) :
    (file = none → buildChromeArgs cwd file url port =
      Except.error "TypeError: path argument must be of type string") ∧
    (∀ f : String, file = some f →
      buildChromeArgs cwd file url port =
        Except.ok (["--chromedebug", "--remote-debugging-port=" ++ Nat.repr port,
          pathResolve cwd f] ++ urlArgs cwd (some f) url)) := by
  constructor
  · intro h; subst h; rfl
  · intro f h; subst h; rfl

/-- Counterexample for C5 as stated: with no file target the code throws
a TypeError rather than assembling a vector without a file-path argument,
and with a file target the produced vector is not the claimed
[remote-debugging flag, file path, launch URL] — it carries the extra
leading --chromedebug flag. -/
theorem c5_counterexample :
    buildChromeArgs "/proj" none (some "http://x") 12345 =
      Except.error "TypeError: path argument must be of type string" ∧
    buildChromeArgs "/proj" (some "app") none 12345 ≠
      Except.ok ["--remote-debugging-port=12345", "/proj/app",
        "file:///proj/app/index.html"] := by
  exact ⟨rfl, by decide⟩

/-- Witness for C5 at a concrete config with a file target. -/
theorem c5_witness :
    buildChromeArgs "/proj" (some "app") none 12345 =
      Except.ok (["--chromedebug", "--remote-debugging-port=" ++ Nat.repr 12345,
        pathResolve "/proj" "app"] ++ urlArgs "/proj" (some "app") none) :=
  (c5_argument_vector "/proj" (some "app") none 12345).2 "app" rfl

/-- Claim C6: the resolved table rewrites every entry pointwise, and for a
single entry: a replacement starting with the placeholder is substituted
(first occurrence) when webRoot is present (truthy); kept unmodified with
a missing-webRoot diagnostic exactly when warnOnMissing is set if webRoot
is absent; a replacement containing the placeholder only at a positive
index is kept unmodified with a diagnostic; a replacement without the
placeholder is unchanged. -/
theorem c6_resolve_web_root_pattern (webRoot : Option Str)
    (T : List (Str × Str)) (warnOnMissing : Bool) :
    (resolveWebRootPattern webRoot T warnOnMissing).1 =
      T.map (fun e => (e.1, (resolveReplace webRoot warnOnMissing e.2).1)) ∧
    ∀ rep : Str,
      (webRootToken.isPrefixOf rep = true →
        (∀ w : Str, webRoot = some w → w ≠ [] →
          resolveReplace webRoot warnOnMissing rep =
            (replaceFirst webRootToken w rep, [])) ∧
        (jsStrTruthy webRoot = false →
          resolveReplace webRoot warnOnMissing rep =
            (rep, if warnOnMissing then [Warn.missingWebRoot] else []))) ∧
      (webRootToken.isPrefixOf rep = false → containsSub webRootToken rep = true →
        resolveReplace webRoot warnOnMissing rep = (rep, [Warn.notAtBeginning])) ∧
      (containsSub webRootToken rep = false →
        resolveReplace webRoot warnOnMissing rep = (rep, [])) := by
  refine ⟨resolveWebRootPattern_fst _ _ _, ?_⟩
  intro rep
  refine ⟨fun hpre => ⟨?_, ?_⟩, ?_, ?_⟩
  · intro w hw hwne
    subst hw
    have h0 : idxOf? webRootToken rep = some 0 := (idxOf?_eq_zero _ _).mpr hpre
    simp [resolveReplace, h0, jsStrTruthy_of_ne w hwne]
  · intro hfal
    have h0 : idxOf? webRootToken rep = some 0 := (idxOf?_eq_zero _ _).mpr hpre
    cases hwm : warnOnMissing <;> simp [resolveReplace, h0, hfal, hwm]
  · intro hnpre hcont
    have hsome : (idxOf? webRootToken rep).isSome = true := by
      rw [idxOf?_isSome]; exact hcont
    cases hx : idxOf? webRootToken rep with
    | none => rw [hx] at hsome; exact Bool.noConfusion hsome
    | some n =>
      cases n with
      | zero =>
        have h1 := (idxOf?_eq_zero webRootToken rep).mp hx
        rw [h1] at hnpre
        exact Bool.noConfusion hnpre
      | succ k => simp [resolveReplace, hx]
  · intro hncont
    have hnone : idxOf? webRootToken rep = none := by
      cases hx : idxOf? webRootToken rep with
      | none => rfl
      | some n =>
        have hs : (idxOf? webRootToken rep).isSome = true := by rw [hx]; rfl
        rw [idxOf?_isSome, hncont] at hs
        exact Bool.noConfusion hs
    simp [resolveReplace, hnone]

/-- Witness for C6 at the spec's three resolver examples plus the
missing-webRoot case. -/
theorem c6_witness :
    resolveReplace (some ("/r".toList)) true ("${webRoot}/x".toList) =
      ("/r/x".toList, []) ∧
    resolveReplace (some ("/r".toList)) true ("x/${webRoot}".toList) =
      ("x/${webRoot}".toList, [Warn.notAtBeginning]) ∧
    resolveReplace (some ("/r".toList)) true ("*".toList) = ("*".toList, []) ∧
    resolveReplace none true ("${webRoot}/x".toList) =
      ("${webRoot}/x".toList, [Warn.missingWebRoot]) := by
  refine ⟨?_, ?_, ?_, ?_⟩
  · have h := (((c6_resolve_web_root_pattern (some ("/r".toList)) [] true).2
      ("${webRoot}/x".toList)).1 (by decide)).1 ("/r".toList) rfl (by decide)
    rw [h]; decide
  · exact ((c6_resolve_web_root_pattern (some ("/r".toList)) [] true).2
      ("x/${webRoot}".toList)).2.1 (by decide) (by decide)
  · exact ((c6_resolve_web_root_pattern (some ("/r".toList)) [] true).2
      ("*".toList)).2.2 (by decide)
  · have h := (((c6_resolve_web_root_pattern none [] true).2
      ("${webRoot}/x".toList)).1 (by decide)).2 (by decide)
    rw [h]; decide

/-- Claim C9: when a replacement begins with the root placeholder and
contains a later occurrence of it (at offset j past the leading token),
only the first occurrence is substituted — the result is webRoot followed
by the untouched remainder, in which the later placeholder occurrence
still appears literally. -/
theorem c9_first_occurrence_only (w rest : Str) (warnOnMissing : Bool) (j : Nat)
    (hw : w ≠ []) (hocc : webRootToken.isPrefixOf (rest.drop j) = true) :
    (resolveReplace (some w) warnOnMissing (webRootToken ++ rest)).1 = w ++ rest ∧
    webRootToken.isPrefixOf
      (((resolveReplace (some w) warnOnMissing (webRootToken ++ rest)).1).drop
        (w.length + j)) = true := by
  have htok : webRootToken ≠ [] := by decide
  have hpre : webRootToken.isPrefixOf (webRootToken ++ rest) = true :=
    isPrefixOf_append_self _ _
  have h0 : idxOf? webRootToken (webRootToken ++ rest) = some 0 :=
    (idxOf?_eq_zero _ _).mpr hpre
  have hres : (resolveReplace (some w) warnOnMissing (webRootToken ++ rest)).1 =
      w ++ rest := by
    simp only [resolveReplace, h0, jsStrTruthy_of_ne w hw, if_true, Option.getD_some]
    rw [replaceFirst_of_pre _ _ _ htok hpre, List.drop_left]
  refine ⟨hres, ?_⟩
  rw [hres]
  have hdrop : (w ++ rest).drop (w.length + j) = rest.drop j := by
    rw [← List.drop_drop, List.drop_left]
  rw [hdrop]
  exact hocc

/-- Witness for C9 at the concrete replacement
"${webRoot}/${webRoot}" with webRoot "/r". -/
theorem c9_witness :
    (resolveReplace (some ("/r".toList)) true
        (webRootToken ++ "/${webRoot}".toList)).1 = "/r".toList ++ "/${webRoot}".toList ∧
    webRootToken.isPrefixOf
      (((resolveReplace (some ("/r".toList)) true
          (webRootToken ++ "/${webRoot}".toList)).1).drop
        ("/r".toList.length + 1)) = true :=
  c9_first_occurrence_only "/r".toList "/${webRoot}".toList true 1 (by decide) (by decide)

/-- Claim C10: a supplied user override table is resolved alone with
warnings enabled — the keys of the result are exactly the user table's
keys, so no key of the built-in default table reaches the result unless
the user table also contains it; the built-in defaults are resolved
(without warnings) only when no user table is supplied. -/
theorem c10_user_table_replaces_defaults (webRoot : Option Str)
    (userTable : List (Str × Str)) :
    getSourceMapPathOverrides webRoot (some userTable) =
      resolveWebRootPattern webRoot userTable true ∧
    (∀ p : Str, p ∈ DefaultWebSourceMapPathOverrides.map Prod.fst →
      p ∉ userTable.map Prod.fst →
      p ∉ (getSourceMapPathOverrides webRoot (some userTable)).1.map Prod.fst) ∧
    getSourceMapPathOverrides webRoot none =
      resolveWebRootPattern webRoot DefaultWebSourceMapPathOverrides false := by
  refine ⟨rfl, ?_, rfl⟩
  intro p _ hnot
  have hkeys : (getSourceMapPathOverrides webRoot (some userTable)).1.map Prod.fst =
      userTable.map Prod.fst := resolveWebRootPattern_keys _ _ _
  rw [hkeys]
  exact hnot

/-- Witness for C10: with user table containing only the key "a", the
default key "webpack:///*" does not appear in the result. -/
theorem c10_witness :
    "webpack:///*".toList ∉
      (getSourceMapPathOverrides none
        (some [("a".toList, "b".toList)])).1.map Prod.fst :=
  (c10_user_table_replaces_defaults none [("a".toList, "b".toList)]).2.1
    ("webpack:///*".toList) (by decide) (by decide)

end KodeChromeDebug
